import Mathlib

/-!
Shallow embedding of the image-generation backend (src/main.py) and proofs
of the specification claims about it.

Modelling conventions:
* Python strings are Lean `String`; `str.strip()` is `pyStrip`, which
  removes leading/trailing ASCII whitespace (the inputs the claims involve
  are ASCII; Python additionally strips some rarer Unicode space
  characters).
* Python `Optional[str]` is `Option String`; Python truthiness of a string
  (`if req.style`) is `s ≠ ""` on the `some` branch.
* Mongo-style documents (Python dicts) are association lists
  `List (String × Value)`; `dict.get k` is `Document.get`, `dict.get k v`
  is `Document.getD`.
* The record-store adapter (`create_document`, `get_documents` from
  `database`) is an explicit function parameter returning `Except String _`:
  `Except.error e` models the adapter raising an exception with message
  `str(e) = e`.
* `datetime.now(timezone.utc)` is an explicit `now : Nat` parameter
  (an abstract timestamp supplied by the clock at response time).
* `urllib.parse.quote` (default `safe='/'`) is modelled byte-exactly on
  the UTF-8 encoding of the string.
* `generate_image` returns, besides its HTTP outcome, the list of
  `create` calls it performed, so that "performs no persistence call"
  is a statement of the model.
-/

deriving instance DecidableEq for Except

namespace ImageGen

/-- A JSON/BSON-ish value stored in a document field. -/
inductive Value where
  | str : String → Value
  | nat : Nat → Value
  | time : Nat → Value
  | null : Value
deriving DecidableEq

/-- A stored document: an association list from field names to values. -/
abbrev Document := List (String × Value)

/-- `dict.get k`: the value at key `k`, if present. -/
def Document.get (d : Document) (k : String) : Option Value :=
  (List.find? (fun p => p.1 == k) d).map Prod.snd

/-- `dict.get k default`. -/
def Document.getD (d : Document) (k : String) (v : Value) : Value :=
  (Document.get d k).getD v

/-- The keys of a document, in order. -/
def Document.keys (d : Document) : List String :=
  d.map Prod.fst

/-- Python `str(v)` on a stored value (used for `str(d.get("_id"))`). -/
def pyStr : Value → String
  | .str s => s
  | .nat n => toString n
  | .time t => toString t
  | .null => "None"

/-- Upper-case hexadecimal digit, as produced by `urllib.parse.quote`. -/
def hexDigit (n : Nat) : Char :=
  if n < 10 then Char.ofNat (48 + n) else Char.ofNat (55 + n)

/-- Bytes `urllib.parse.quote` leaves unescaped with its default
`safe='/'`: ASCII letters, digits, `_`, `.`, `-`, `~` and `/`. -/
def isQuoteSafeByte (b : Nat) : Bool :=
  (65 ≤ b && b ≤ 90) || (97 ≤ b && b ≤ 122) || (48 ≤ b && b ≤ 57) ||
  b == 95 || b == 46 || b == 45 || b == 126 || b == 47

/-- Percent-encode one byte as `urllib.parse.quote` does. -/
def quoteByte (b : Nat) : String :=
  if isQuoteSafeByte b then String.singleton (Char.ofNat b)
  else "%" ++ String.singleton (hexDigit (b / 16)) ++ String.singleton (hexDigit (b % 16))

/-- The UTF-8 bytes of a character, as byte values. -/
def utf8Bytes (c : Char) : List Nat :=
  let n := c.toNat
  if n < 128 then [n]
  else if n < 2048 then [192 + n / 64, 128 + n % 64]
  else if n < 65536 then [224 + n / 4096, 128 + (n / 64) % 64, 128 + n % 64]
  else [240 + n / 262144, 128 + (n / 4096) % 64, 128 + (n / 64) % 64, 128 + n % 64]

/-- `urllib.parse.quote(s)` with the default `safe='/'`. -/
def quote (s : String) : String :=
  String.join ((s.toList.flatMap utf8Bytes).map quoteByte)

/-- `size_to_dims` from src/main.py: map the optional size keyword to a
(width, height) pair. -/
def size_to_dims (size : Option String) : Nat × Nat :=
  if size = some "portrait" then (768, 1024)
  else if size = some "landscape" then (1024, 640)
  else (1024, 1024)

/-- ASCII whitespace stripped by Python `str.strip()`:
space, tab, newline, carriage return, vertical tab, form feed. -/
def isPySpace (c : Char) : Bool :=
  c == ' ' || c == '\t' || c == '\n' || c == '\r' || c.toNat == 11 || c.toNat == 12

/-- Python `s.strip()`: remove leading and trailing whitespace. -/
def pyStrip (s : String) : String :=
  String.mk (((s.toList.dropWhile isPySpace).reverse.dropWhile isPySpace).reverse)

/-- The body of `POST /api/generate` after pydantic parsing.
`style = none` models a null/absent style; `size = none` models an explicit
null size (pydantic fills in `some "square"` when the field is absent). -/
structure GenerateRequest where
  prompt : String
  style : Option String
  size : Option String
deriving DecidableEq

/-- An `HTTPException(status_code, detail)`. -/
structure HTTPErr where
  status : Nat
  detail : String
deriving DecidableEq

/-- The `GenerationResponse` pydantic model. Fields other than `id` are
kept as stored `Value`s because `list_generations` fills them from
schema-less documents via `dict.get`. -/
structure GenerationResponse where
  id : String
  prompt : Value
  style : Value
  size : Value
  image_url : Value
  width : Value
  height : Value
  created_at : Value
deriving DecidableEq

/-- The seed suffix `("-" + req.style if req.style else "")`:
Python string truthiness makes both `None` and `""` contribute nothing. -/
def styleSeedSuffix (style : Option String) : String :=
  match style with
  | some s => if s = "" then "" else "-" ++ s
  | none => ""

/-- `quote((req.prompt + ("-" + req.style if req.style else "")).strip())`:
the raw prompt is concatenated first and the combination stripped after. -/
def seedOf (prompt : String) (style : Option String) : String :=
  quote (pyStrip (prompt ++ styleSeedSuffix style))

/-- `f"https://picsum.photos/seed/{seed}/{width}/{height}"`. -/
def imageUrlOf (prompt : String) (style : Option String) (size : Option String) : String :=
  "https://picsum.photos/seed/" ++ seedOf prompt style ++ "/" ++
    toString (size_to_dims size).1 ++ "/" ++ toString (size_to_dims size).2

/-- `req.style.strip() if req.style else None`. -/
def storedStyle (style : Option String) : Value :=
  match style with
  | some s => if s = "" then Value.null else Value.str (pyStrip s)
  | none => Value.null

/-- `req.size or "square"`. -/
def storedSize (size : Option String) : String :=
  match size with
  | some s => if s = "" then "square" else s
  | none => "square"

/-- The `doc` dict literal built by `generate_image` (src/main.py lines 98-105). -/
def buildDoc (req : GenerateRequest) : Document :=
  [("prompt", Value.str (pyStrip req.prompt)),
   ("style", storedStyle req.style),
   ("size", Value.str (storedSize req.size)),
   ("image_url", Value.str (imageUrlOf req.prompt req.style req.size)),
   ("width", Value.nat (size_to_dims req.size).1),
   ("height", Value.nat (size_to_dims req.size).2)]

/-- The `GenerationResponse(...)` built on success: every field except `id`
and `created_at` is read back from the `doc` dict. -/
def respOf (req : GenerateRequest) (inserted_id : String) (now : Nat) : GenerationResponse :=
  ⟨inserted_id,
   Document.getD (buildDoc req) "prompt" Value.null,
   Document.getD (buildDoc req) "style" Value.null,
   Document.getD (buildDoc req) "size" Value.null,
   Document.getD (buildDoc req) "image_url" Value.null,
   Document.getD (buildDoc req) "width" Value.null,
   Document.getD (buildDoc req) "height" Value.null,
   Value.time now⟩

/-- `generate_image` from src/main.py. `create_document` is the record-store
adapter; `now` is the clock value at response-construction time. Besides
the HTTP outcome, the result carries the list of `create_document` calls
performed (collection name and document), so that absence of persistence
is expressible. -/
def generate_image (create_document : String → Document → Except String String)
    (now : Nat) (req : GenerateRequest) :
    Except HTTPErr GenerationResponse × List (String × Document) :=
  if req.prompt = "" ∨ (pyStrip req.prompt).length < 3 then
    (Except.error ⟨400, "Prompt is too short"⟩, [])
  else
    match create_document "generation" (buildDoc req) with
    | Except.error e =>
        (Except.error ⟨500, "Database error: " ++ e⟩, [("generation", buildDoc req)])
    | Except.ok inserted_id =>
        (Except.ok (respOf req inserted_id now), [("generation", buildDoc req)])

/-- Per-document response mapping inside `list_generations`: every field is
read with `dict.get`, and `created_at` falls back to the current time
exactly when the key is absent. -/
def docToResponse (now : Nat) (d : Document) : GenerationResponse :=
  ⟨pyStr (Document.getD d "_id" Value.null),
   Document.getD d "prompt" Value.null,
   Document.getD d "style" Value.null,
   Document.getD d "size" Value.null,
   Document.getD d "image_url" Value.null,
   Document.getD d "width" Value.null,
   Document.getD d "height" Value.null,
   Document.getD d "created_at" (Value.time now)⟩

/-- The default of the `limit` query parameter of `GET /api/generations`. -/
def default_limit : Nat := 20

/-- `list_generations` from src/main.py: query the adapter with an empty
filter and the given limit, then map each document to the response shape. -/
def list_generations (get_documents : String → Document → Nat → Except String (List Document))
    (now : Nat) (limit : Nat) : Except HTTPErr (List GenerationResponse) :=
  match get_documents "generation" [] limit with
  | Except.error e => Except.error ⟨500, "Database error: " ++ e⟩
  | Except.ok docs => Except.ok (docs.map (docToResponse now))

/-- The URL seed exactly as claim C3 words it: the TRIMMED prompt is
concatenated with `"-" ++ style` whenever style is present and non-null,
and the combination is trimmed and percent-encoded. Written from the
claim, not from the source, for comparison with `seedOf`. -/
def seedOf_claimed (prompt : String) (style : Option String) : String :=
  quote (pyStrip (pyStrip prompt ++ (match style with
    | some s => "-" ++ s
    | none => "")))

/-! ### Helper lemmas (shared) -/

theorem valid_not_rejected (req : GenerateRequest) (h : 3 ≤ (pyStrip req.prompt).length) :
    ¬(req.prompt = "" ∨ (pyStrip req.prompt).length < 3) := by
  rintro (he | hl)
  · rw [he] at h
    revert h
    decide
  · omega

theorem generate_calls_of_valid (cd : String → Document → Except String String)
    (now : Nat) (req : GenerateRequest) (h : 3 ≤ (pyStrip req.prompt).length) :
    (generate_image cd now req).2 = [("generation", buildDoc req)] := by
  unfold generate_image
  rw [if_neg (valid_not_rejected req h)]
  cases cd "generation" (buildDoc req) <;> rfl

theorem generate_ok_resp (cd : String → Document → Except String String)
    (now : Nat) (req : GenerateRequest) (r : GenerationResponse)
    (h : (generate_image cd now req).1 = Except.ok r) :
    ∃ i, cd "generation" (buildDoc req) = Except.ok i ∧ r = respOf req i now := by
  unfold generate_image at h
  by_cases hc : req.prompt = "" ∨ (pyStrip req.prompt).length < 3
  · rw [if_pos hc] at h
    exact absurd h (by simp)
  · rw [if_neg hc] at h
    cases hcd : cd "generation" (buildDoc req) with
    | error e =>
        rw [hcd] at h
        exact absurd h (by simp)
    | ok i =>
        rw [hcd] at h
        simp only [Except.ok.injEq] at h
        exact ⟨i, rfl, h.symm⟩

theorem buildDoc_get_prompt (req : GenerateRequest) :
    Document.getD (buildDoc req) "prompt" Value.null = Value.str (pyStrip req.prompt) := rfl

theorem buildDoc_get_style (req : GenerateRequest) :
    Document.getD (buildDoc req) "style" Value.null = storedStyle req.style := rfl

theorem buildDoc_get_size (req : GenerateRequest) :
    Document.getD (buildDoc req) "size" Value.null = Value.str (storedSize req.size) := rfl

theorem buildDoc_get_image_url (req : GenerateRequest) :
    Document.getD (buildDoc req) "image_url" Value.null =
      Value.str (imageUrlOf req.prompt req.style req.size) := rfl

theorem buildDoc_get_width (req : GenerateRequest) :
    Document.getD (buildDoc req) "width" Value.null = Value.nat (size_to_dims req.size).1 := rfl

theorem buildDoc_get_height (req : GenerateRequest) :
    Document.getD (buildDoc req) "height" Value.null = Value.nat (size_to_dims req.size).2 := rfl

theorem buildDoc_get_created_at (req : GenerateRequest) :
    Document.get (buildDoc req) "created_at" = none := rfl

theorem generate_ok_image_url (cd : String → Document → Except String String)
    (now : Nat) (req : GenerateRequest) (r : GenerationResponse)
    (h : (generate_image cd now req).1 = Except.ok r) :
    r.image_url = Value.str (imageUrlOf req.prompt req.style req.size) := by
  obtain ⟨i, _, hr⟩ := generate_ok_resp cd now req r h
  rw [hr]
  exact buildDoc_get_image_url req

theorem generate_mem_calls (cd : String → Document → Except String String)
    (now : Nat) (req : GenerateRequest) (c : String) (d : Document)
    (h : (c, d) ∈ (generate_image cd now req).2) :
    c = "generation" ∧ d = buildDoc req := by
  unfold generate_image at h
  by_cases hc : req.prompt = "" ∨ (pyStrip req.prompt).length < 3
  · rw [if_pos hc] at h
    simp at h
  · rw [if_neg hc] at h
    cases hcd : cd "generation" (buildDoc req) <;> rw [hcd] at h <;> simpa using h

theorem size_to_dims_cases (z : Option String) :
    size_to_dims z = (1024, 1024) ∨ size_to_dims z = (768, 1024) ∨
      size_to_dims z = (1024, 640) := by
  unfold size_to_dims
  split
  · exact Or.inr (Or.inl rfl)
  split
  · exact Or.inr (Or.inr rfl)
  · exact Or.inl rfl

/-! ### Claim theorems -/

/-- C1: the dimension resolver is a total pure function: `"portrait"`
maps to (768, 1024), `"landscape"` to (1024, 640), and every other input —
absent (`none`), unrecognized, or `"square"` — to (1024, 1024). -/
theorem size_to_dims_total_spec (size : Option String) :
    (size = some "portrait" → size_to_dims size = (768, 1024)) ∧
    (size = some "landscape" → size_to_dims size = (1024, 640)) ∧
    (size ≠ some "portrait" → size ≠ some "landscape" →
      size_to_dims size = (1024, 1024)) := by
  refine ⟨fun h => ?_, fun h => ?_, fun h1 h2 => ?_⟩
  · rw [h]
    rfl
  · rw [h]
    rfl
  · unfold size_to_dims
    rw [if_neg h1, if_neg h2]

/-- Witness for C1 at the five representative inputs. -/
theorem size_to_dims_total_spec_witness :
    size_to_dims (some "portrait") = (768, 1024) ∧
    size_to_dims (some "landscape") = (1024, 640) ∧
    size_to_dims (some "square") = (1024, 1024) ∧
    size_to_dims none = (1024, 1024) ∧
    size_to_dims (some "weird") = (1024, 1024) :=
  ⟨(size_to_dims_total_spec (some "portrait")).1 rfl,
   (size_to_dims_total_spec (some "landscape")).2.1 rfl,
   (size_to_dims_total_spec (some "square")).2.2 (by decide) (by decide),
   (size_to_dims_total_spec none).2.2 (by decide) (by decide),
   (size_to_dims_total_spec (some "weird")).2.2 (by decide) (by decide)⟩

/-- C2: whenever the stripped prompt has length below 3 (the empty prompt
included), `generate_image` fails with the 400 "Prompt is too short"
error and performs no call to the record-store adapter. -/
theorem generate_short_prompt_rejected
    (create_document : String → Document → Except String String)
    (now : Nat) (req : GenerateRequest)
    (h : (pyStrip req.prompt).length < 3) :
    (generate_image create_document now req).1 =
      Except.error ⟨400, "Prompt is too short"⟩ ∧
    (generate_image create_document now req).2 = [] := by
  unfold generate_image
  rw [if_pos (Or.inr h)]
  exact ⟨rfl, rfl⟩

/-- Witness for C2 at the prompt `"hi"` (stripped length 2). -/
theorem generate_short_prompt_rejected_witness :
    (pyStrip "hi").length < 3 ∧
    (generate_image (fun _ _ => Except.ok "id1") 0 ⟨"hi", none, some "square"⟩).1 =
      Except.error ⟨400, "Prompt is too short"⟩ ∧
    (generate_image (fun _ _ => Except.ok "id1") 0 ⟨"hi", none, some "square"⟩).2 = [] :=
  ⟨by decide,
   (generate_short_prompt_rejected (fun _ _ => Except.ok "id1") 0
      ⟨"hi", none, some "square"⟩ (by decide)).1,
   (generate_short_prompt_rejected (fun _ _ => Except.ok "id1") 0
      ⟨"hi", none, some "square"⟩ (by decide)).2⟩

/-- C3 counterexample: for the prompt `"  cat  "` with style `"x"`, the
code strips only AFTER concatenating, so the produced URL embeds
`cat%20%20-x`, while the claimed derivation (trimmed prompt first,
`seedOf_claimed`) would yield `cat-x`. -/
theorem image_url_claim_counterexample :
    (generate_image (fun _ _ => Except.ok "id1") 0
        ⟨"  cat  ", some "x", some "square"⟩).1 =
      Except.ok ⟨"id1", Value.str "cat", Value.str "x", Value.str "square",
        Value.str "https://picsum.photos/seed/cat%20%20-x/1024/1024",
        Value.nat 1024, Value.nat 1024, Value.time 0⟩ ∧
    seedOf_claimed "  cat  " (some "x") = "cat-x" ∧
    "cat%20%20-x" ≠ "cat-x" := by
  decide

/-- C3 (amended): for every valid request that reaches a response, the
`image_url` is derived by concatenating the RAW (unstripped) prompt with
`"-" ++ style` when the style is present, non-null and non-empty,
stripping the combined string, percent-encoding it, and placing it in
the fixed path `.../seed/{encoded}/{width}/{height}` with the resolved
dimensions. -/
theorem image_url_derivation
    (create_document : String → Document → Except String String)
    (now : Nat) (req : GenerateRequest) (r : GenerationResponse)
    (h : (generate_image create_document now req).1 = Except.ok r) :
    r.image_url = Value.str ("https://picsum.photos/seed/" ++
      quote (pyStrip (req.prompt ++ (match req.style with
        | some s => if s = "" then "" else "-" ++ s
        | none => ""))) ++ "/" ++
      toString (size_to_dims req.size).1 ++ "/" ++
      toString (size_to_dims req.size).2) := by
  rw [generate_ok_image_url create_document now req r h]
  cases req.style <;> rfl

/-- Witness for C3 (amended) at prompt `"  cat  "`, style `"x"`. -/
theorem image_url_derivation_witness :
    (⟨"id1", Value.str "cat", Value.str "x", Value.str "square",
      Value.str "https://picsum.photos/seed/cat%20%20-x/1024/1024",
      Value.nat 1024, Value.nat 1024, Value.time 0⟩ : GenerationResponse).image_url =
      Value.str ("https://picsum.photos/seed/" ++
        quote (pyStrip ("  cat  " ++ (match some "x" with
          | some s => if s = "" then "" else "-" ++ s
          | none => ""))) ++ "/" ++
        toString (size_to_dims (some "square")).1 ++ "/" ++
        toString (size_to_dims (some "square")).2) :=
  image_url_derivation (fun _ _ => Except.ok "id1") 0
    ⟨"  cat  ", some "x", some "square"⟩
    ⟨"id1", Value.str "cat", Value.str "x", Value.str "square",
      Value.str "https://picsum.photos/seed/cat%20%20-x/1024/1024",
      Value.nat 1024, Value.nat 1024, Value.time 0⟩ (by decide)

/-- C4: on every valid request the document handed to the adapter's create
operation has exactly the keys prompt, style, size, image_url, width,
height, holding the stripped prompt, the stripped-or-null style, the
size defaulted to "square" when absent, the derived url and the resolved
dimensions. -/
theorem persisted_doc_shape
    (create_document : String → Document → Except String String)
    (now : Nat) (req : GenerateRequest)
    (h : 3 ≤ (pyStrip req.prompt).length) :
    (generate_image create_document now req).2 = [("generation", buildDoc req)] ∧
    Document.keys (buildDoc req) =
      ["prompt", "style", "size", "image_url", "width", "height"] ∧
    Document.getD (buildDoc req) "prompt" Value.null = Value.str (pyStrip req.prompt) ∧
    (req.style = none → Document.getD (buildDoc req) "style" Value.null = Value.null) ∧
    (∀ s, req.style = some s → s ≠ "" →
      Document.getD (buildDoc req) "style" Value.null = Value.str (pyStrip s)) ∧
    (req.size = none → Document.getD (buildDoc req) "size" Value.null = Value.str "square") ∧
    (∀ s, req.size = some s → s ≠ "" →
      Document.getD (buildDoc req) "size" Value.null = Value.str s) ∧
    Document.getD (buildDoc req) "image_url" Value.null =
      Value.str (imageUrlOf req.prompt req.style req.size) ∧
    Document.getD (buildDoc req) "width" Value.null = Value.nat (size_to_dims req.size).1 ∧
    Document.getD (buildDoc req) "height" Value.null = Value.nat (size_to_dims req.size).2 := by
  refine ⟨generate_calls_of_valid create_document now req h, rfl, buildDoc_get_prompt req,
    ?_, ?_, ?_, ?_, buildDoc_get_image_url req, buildDoc_get_width req,
    buildDoc_get_height req⟩
  · intro hs
    rw [buildDoc_get_style req, hs]
    rfl
  · intro s hs hne
    rw [buildDoc_get_style req, hs]
    simp [storedStyle, hne]
  · intro hz
    rw [buildDoc_get_size req, hz]
    rfl
  · intro s hz hne
    rw [buildDoc_get_size req, hz]
    simp [storedSize, hne]

/-- Witness for C4 at the request (prompt "sun", no style, null size). -/
theorem persisted_doc_shape_witness :
    3 ≤ (pyStrip "sun").length ∧
    (generate_image (fun _ _ => Except.ok "id2") 5 ⟨"sun", none, none⟩).2 =
      [("generation", buildDoc ⟨"sun", none, none⟩)] ∧
    Document.keys (buildDoc ⟨"sun", none, none⟩) =
      ["prompt", "style", "size", "image_url", "width", "height"] :=
  ⟨by decide,
   (persisted_doc_shape (fun _ _ => Except.ok "id2") 5 ⟨"sun", none, none⟩ (by decide)).1,
   (persisted_doc_shape (fun _ _ => Except.ok "id2") 5 ⟨"sun", none, none⟩ (by decide)).2.1⟩

/-- C5: when the adapter raises during create, `generate_image` fails with
the 500 error embedding the underlying message, returns no (unpersisted)
response, and made exactly one create call (no retry); when the adapter
raises during query, `list_generations` fails with the 500 error
embedding the message and returns no partial results. -/
theorem storage_error_total_failure
    (create_document : String → Document → Except String String)
    (get_documents : String → Document → Nat → Except String (List Document))
    (now : Nat) (req : GenerateRequest) (e e' : String) (limit : Nat)
    (hv : 3 ≤ (pyStrip req.prompt).length)
    (hc : create_document "generation" (buildDoc req) = Except.error e)
    (hq : get_documents "generation" [] limit = Except.error e') :
    (generate_image create_document now req).1 =
      Except.error ⟨500, "Database error: " ++ e⟩ ∧
    (∀ r, (generate_image create_document now req).1 ≠ Except.ok r) ∧
    (generate_image create_document now req).2 = [("generation", buildDoc req)] ∧
    list_generations get_documents now limit =
      Except.error ⟨500, "Database error: " ++ e'⟩ := by
  have h1 : (generate_image create_document now req).1 =
      Except.error ⟨500, "Database error: " ++ e⟩ := by
    unfold generate_image
    rw [if_neg (valid_not_rejected req hv), hc]
  refine ⟨h1, ?_, generate_calls_of_valid create_document now req hv, ?_⟩
  · intro r hr
    rw [h1] at hr
    exact absurd hr (by simp)
  · unfold list_generations
    rw [hq]

/-- Witness for C5 with an adapter failing with "boom" on create and
"qfail" on query. -/
theorem storage_error_total_failure_witness :
    3 ≤ (pyStrip "sun").length ∧
    (generate_image (fun _ _ => Except.error "boom") 0 ⟨"sun", none, none⟩).1 =
      Except.error ⟨500, "Database error: " ++ "boom"⟩ ∧
    list_generations (fun _ _ _ => Except.error "qfail") 0 20 =
      Except.error ⟨500, "Database error: " ++ "qfail"⟩ :=
  ⟨by decide,
   (storage_error_total_failure (fun _ _ => Except.error "boom")
      (fun _ _ _ => Except.error "qfail") 0 ⟨"sun", none, none⟩ "boom" "qfail" 20
      (by decide) rfl rfl).1,
   (storage_error_total_failure (fun _ _ => Except.error "boom")
      (fun _ _ _ => Except.error "qfail") 0 ⟨"sun", none, none⟩ "boom" "qfail" 20
      (by decide) rfl rfl).2.2.2⟩

/-- C6: when the adapter's query (empty filter, given limit, default 20)
returns a document sequence, `list_generations` maps each document's
stored fields directly into the response shape, substituting the current
timestamp for `created_at` exactly when the stored document lacks that
key. -/
theorem list_maps_stored_fields
    (get_documents : String → Document → Nat → Except String (List Document))
    (now limit : Nat) (docs : List Document)
    (hq : get_documents "generation" [] limit = Except.ok docs) :
    list_generations get_documents now limit =
      Except.ok (docs.map (docToResponse now)) ∧
    (∀ d : Document,
      (docToResponse now d).id = pyStr (Document.getD d "_id" Value.null) ∧
      (docToResponse now d).prompt = Document.getD d "prompt" Value.null ∧
      (docToResponse now d).style = Document.getD d "style" Value.null ∧
      (docToResponse now d).size = Document.getD d "size" Value.null ∧
      (docToResponse now d).image_url = Document.getD d "image_url" Value.null ∧
      (docToResponse now d).width = Document.getD d "width" Value.null ∧
      (docToResponse now d).height = Document.getD d "height" Value.null ∧
      (Document.get d "created_at" = none →
        (docToResponse now d).created_at = Value.time now) ∧
      (∀ v, Document.get d "created_at" = some v →
        (docToResponse now d).created_at = v)) ∧
    default_limit = 20 := by
  refine ⟨?_, ?_, rfl⟩
  · unfold list_generations
    rw [hq]
  · intro d
    refine ⟨rfl, rfl, rfl, rfl, rfl, rfl, rfl, ?_, ?_⟩
    · intro hnone
      show Document.getD d "created_at" (Value.time now) = Value.time now
      unfold Document.getD
      rw [hnone]
      rfl
    · intro v hv
      show Document.getD d "created_at" (Value.time now) = v
      unfold Document.getD
      rw [hv]
      rfl

/-- Witness for C6 on a two-document store, one document lacking
`created_at` and one carrying it. -/
theorem list_maps_stored_fields_witness :
    list_generations
      (fun _ _ _ => Except.ok [[("prompt", Value.str "sun")],
        [("created_at", Value.time 3)]]) 7 20 =
    Except.ok ([[("prompt", Value.str "sun")],
        [("created_at", Value.time 3)]].map (docToResponse 7)) :=
  (list_maps_stored_fields
    (fun _ _ _ => Except.ok [[("prompt", Value.str "sun")],
      [("created_at", Value.time 3)]]) 7 20
    [[("prompt", Value.str "sun")], [("created_at", Value.time 3)]] rfl).1

/-- C7: URL derivation is deterministic: two `generate_image` calls with
identical (prompt, style, size), under any adapters and clock values,
produce responses carrying identical `image_url` strings. -/
theorem url_derivation_deterministic
    (cd₁ cd₂ : String → Document → Except String String) (now₁ now₂ : Nat)
    (req₁ req₂ : GenerateRequest) (r₁ r₂ : GenerationResponse)
    (hp : req₁.prompt = req₂.prompt) (hs : req₁.style = req₂.style)
    (hz : req₁.size = req₂.size)
    (h₁ : (generate_image cd₁ now₁ req₁).1 = Except.ok r₁)
    (h₂ : (generate_image cd₂ now₂ req₂).1 = Except.ok r₂) :
    r₁.image_url = r₂.image_url := by
  rw [generate_ok_image_url cd₁ now₁ req₁ r₁ h₁,
    generate_ok_image_url cd₂ now₂ req₂ r₂ h₂, hp, hs, hz]

/-- Witness for C7: the same request under two different adapters and
clocks yields the same URL. -/
theorem url_derivation_deterministic_witness :
    (⟨"a", Value.str "sun", Value.null, Value.str "square",
      Value.str "https://picsum.photos/seed/sun/1024/1024",
      Value.nat 1024, Value.nat 1024, Value.time 0⟩ : GenerationResponse).image_url =
    (⟨"b", Value.str "sun", Value.null, Value.str "square",
      Value.str "https://picsum.photos/seed/sun/1024/1024",
      Value.nat 1024, Value.nat 1024, Value.time 9⟩ : GenerationResponse).image_url :=
  url_derivation_deterministic (fun _ _ => Except.ok "a") (fun _ _ => Except.ok "b") 0 9
    ⟨"sun", none, none⟩ ⟨"sun", none, none⟩
    ⟨"a", Value.str "sun", Value.null, Value.str "square",
      Value.str "https://picsum.photos/seed/sun/1024/1024",
      Value.nat 1024, Value.nat 1024, Value.time 0⟩
    ⟨"b", Value.str "sun", Value.null, Value.str "square",
      Value.str "https://picsum.photos/seed/sun/1024/1024",
      Value.nat 1024, Value.nat 1024, Value.time 9⟩
    rfl rfl rfl (by decide) (by decide)

/-- C8 counterexample: a successful generate with the unrecognized size
`"banana"` persists `size = "banana"`, which is outside the claimed
keyword set {square, portrait, landscape}. -/
theorem size_keyword_counterexample :
    (generate_image (fun _ _ => Except.ok "id1") 0
        ⟨"red fox", none, some "banana"⟩).1 =
      Except.ok ⟨"id1", Value.str "red fox", Value.null, Value.str "banana",
        Value.str "https://picsum.photos/seed/red%20fox/1024/1024",
        Value.nat 1024, Value.nat 1024, Value.time 0⟩ ∧
    ((generate_image (fun _ _ => Except.ok "id1") 0
        ⟨"red fox", none, some "banana"⟩).2.map
      (fun c => Document.getD c.2 "size" Value.null)) = [Value.str "banana"] ∧
    Value.str "banana" ∉ [Value.str "square", Value.str "portrait",
      Value.str "landscape"] := by
  decide

/-- C8 (amended): every record persisted by a successful generate stores
as `size` the client-supplied size string defaulted to "square" when
absent or empty (not restricted to the keyword set), and its width and
height are always one of exactly the three fixed pairs. -/
theorem persisted_size_and_dims
    (create_document : String → Document → Except String String)
    (now : Nat) (req : GenerateRequest) (r : GenerationResponse)
    (_h : (generate_image create_document now req).1 = Except.ok r) :
    (∀ c ∈ (generate_image create_document now req).2,
      Document.getD c.2 "size" Value.null = Value.str (storedSize req.size) ∧
      (Document.getD c.2 "width" Value.null, Document.getD c.2 "height" Value.null) ∈
        [(Value.nat 1024, Value.nat 1024), (Value.nat 768, Value.nat 1024),
         (Value.nat 1024, Value.nat 640)]) ∧
    (req.size = none → storedSize req.size = "square") ∧
    (∀ s, req.size = some s → s ≠ "" → storedSize req.size = s) := by
  refine ⟨?_, ?_, ?_⟩
  · rintro ⟨c, d⟩ hmem
    obtain ⟨hc, hd⟩ := generate_mem_calls create_document now req c d hmem
    subst hd
    refine ⟨buildDoc_get_size req, ?_⟩
    rw [buildDoc_get_width req, buildDoc_get_height req]
    rcases size_to_dims_cases req.size with h1 | h1 | h1 <;> rw [h1] <;> simp
  · intro hz
    rw [hz]
    rfl
  · intro s hz hne
    rw [hz]
    simp [storedSize, hne]

/-- Witness for C8 (amended) at the unrecognized size "banana". -/
theorem persisted_size_and_dims_witness :
    Document.getD (buildDoc ⟨"red fox", none, some "banana"⟩) "size" Value.null =
      Value.str (storedSize (some "banana")) ∧
    (Document.getD (buildDoc ⟨"red fox", none, some "banana"⟩) "width" Value.null,
     Document.getD (buildDoc ⟨"red fox", none, some "banana"⟩) "height" Value.null) ∈
      [(Value.nat 1024, Value.nat 1024), (Value.nat 768, Value.nat 1024),
       (Value.nat 1024, Value.nat 640)] :=
  (persisted_size_and_dims (fun _ _ => Except.ok "id1") 0
    ⟨"red fox", none, some "banana"⟩
    ⟨"id1", Value.str "red fox", Value.null, Value.str "banana",
      Value.str "https://picsum.photos/seed/red%20fox/1024/1024",
      Value.nat 1024, Value.nat 1024, Value.time 0⟩ (by decide)).1
    ("generation", buildDoc ⟨"red fox", none, some "banana"⟩) (by decide)

/-- C9: the persisted document never contains `created_at` — its keys are
exactly prompt, style, size, image_url, width, height — so the
`created_at` of the generate response is constructed at response time,
and any record persisted by this system is listed with the substituted
(not stored) timestamp. -/
theorem no_created_at_persisted
    (create_document : String → Document → Except String String)
    (now t : Nat) (req : GenerateRequest) (coll : String) (doc : Document)
    (h : (coll, doc) ∈ (generate_image create_document now req).2) :
    Document.keys doc = ["prompt", "style", "size", "image_url", "width", "height"] ∧
    Document.get doc "created_at" = none ∧
    (∀ r, (generate_image create_document now req).1 = Except.ok r →
      r.created_at = Value.time now) ∧
    (docToResponse t doc).created_at = Value.time t := by
  obtain ⟨hcoll, hdoc⟩ := generate_mem_calls create_document now req coll doc h
  subst hdoc
  refine ⟨rfl, buildDoc_get_created_at req, ?_, ?_⟩
  · intro r hr
    obtain ⟨i, _, hresp⟩ := generate_ok_resp create_document now req r hr
    rw [hresp]
    rfl
  · show Document.getD (buildDoc req) "created_at" (Value.time t) = Value.time t
    unfold Document.getD
    rw [buildDoc_get_created_at req]
    rfl

/-- Witness for C9 on the document persisted for (prompt "sun"). -/
theorem no_created_at_persisted_witness :
    Document.keys (buildDoc ⟨"sun", none, none⟩) =
      ["prompt", "style", "size", "image_url", "width", "height"] ∧
    Document.get (buildDoc ⟨"sun", none, none⟩) "created_at" = none ∧
    (docToResponse 42 (buildDoc ⟨"sun", none, none⟩)).created_at = Value.time 42 :=
  ⟨(no_created_at_persisted (fun _ _ => Except.ok "id9") 3 42 ⟨"sun", none, none⟩
      "generation" (buildDoc ⟨"sun", none, none⟩) (by decide)).1,
   (no_created_at_persisted (fun _ _ => Except.ok "id9") 3 42 ⟨"sun", none, none⟩
      "generation" (buildDoc ⟨"sun", none, none⟩) (by decide)).2.1,
   (no_created_at_persisted (fun _ _ => Except.ok "id9") 3 42 ⟨"sun", none, none⟩
      "generation" (buildDoc ⟨"sun", none, none⟩) (by decide)).2.2.2⟩

/-- C10: an empty-string style behaves exactly like an absent style (the
whole persisted document coincides, so no seed suffix and null stored
style), while a whitespace-only style has its suffix appended before the
combined string is stripped and is persisted as the empty string, not
null. -/
theorem empty_vs_whitespace_style
    (p : String) (z : Option String) (ws : String)
    (h1 : ws ≠ "") (h2 : pyStrip ws = "") :
    buildDoc ⟨p, some "", z⟩ = buildDoc ⟨p, none, z⟩ ∧
    Document.getD (buildDoc ⟨p, some "", z⟩) "style" Value.null = Value.null ∧
    seedOf p (some ws) = quote (pyStrip (p ++ ("-" ++ ws))) ∧
    Document.getD (buildDoc ⟨p, some ws, z⟩) "style" Value.null = Value.str "" := by
  refine ⟨rfl, rfl, ?_, ?_⟩
  · unfold seedOf styleSeedSuffix
    show quote (pyStrip (p ++ (if ws = "" then "" else "-" ++ ws))) =
      quote (pyStrip (p ++ ("-" ++ ws)))
    rw [if_neg h1]
  · rw [buildDoc_get_style]
    show (if ws = "" then Value.null else Value.str (pyStrip ws)) = Value.str ""
    rw [if_neg h1, h2]

/-- Witness for C10 at prompt "cat", whitespace style `" "`. -/
theorem empty_vs_whitespace_style_witness :
    (" " ≠ "") ∧ pyStrip " " = "" ∧
    buildDoc ⟨"cat", some "", none⟩ = buildDoc ⟨"cat", none, none⟩ ∧
    seedOf "cat" (some " ") = quote (pyStrip ("cat" ++ ("-" ++ " "))) ∧
    Document.getD (buildDoc ⟨"cat", some " ", none⟩) "style" Value.null = Value.str "" :=
  ⟨by decide, by decide,
   (empty_vs_whitespace_style "cat" none " " (by decide) (by decide)).1,
   (empty_vs_whitespace_style "cat" none " " (by decide) (by decide)).2.2.1,
   (empty_vs_whitespace_style "cat" none " " (by decide) (by decide)).2.2.2⟩

end ImageGen
